import Mathlib

/-!
Verification of the go-sqlite-db user/subscription service.

Shallow embedding of the repository's core:
* `domain.Usuario` (src/internal/domain, src/unnamed/part_003 tail) as `Usuario`;
* the SQLite-backed repository (src/internal/repository/sqlite_repo.go) as pure
  functions over a `Store` value, a list of table rows plus the auto-increment
  counter — NULLable columns are `Option`, and the scan step that turns NULLs
  into Go zero values is `Row.scan`;
* the service layer (src/internal/service/service.go) as functions returning
  `Except Err` results together with the resulting store and an ordered log of
  repository / Stripe calls, so that claims about "no persistence call" and
  about call ordering are statable.

Go `time.Time` values are modelled as unix seconds (`Int`), the zero time
being `0`.  The Stripe SDK (customer.New, session.New, webhook.ConstructEvent,
subscription.Get) is an opaque external collaborator, modelled as a record of
functions `StripeEnv` that the service functions take as a parameter.
-/

/-- The domain entity `domain.Usuario`, as the Go struct: subscription fields
read back from NULL columns carry the Go zero values ("" and the zero time). -/
structure Usuario where
  id : Int
  nome : String
  email : String
  stripeCustomerID : String
  stripeSubscriptionID : String
  subscriptionStatus : String
  subscriptionCurrentPeriodEnd : Int
deriving DecidableEq, Repr

/-- One row of the `usuarios` table.  The four columns added by migration
000001_add_subscription_fields.up.sql are NULLable, hence `Option`;
`subscription_status` has the SQL default `'inactive'`. -/
structure Row where
  id : Int
  nome : String
  email : String
  stripe_customer_id : Option String
  stripe_subscription_id : Option String
  subscription_status : Option String
  subscription_current_period_end : Option Int
deriving DecidableEq, Repr

/-- The relational store: the `usuarios` table plus the auto-increment counter
that yields `LastInsertId`. -/
structure Store where
  rows : List Row
  nextId : Int
deriving DecidableEq, Repr

/-- The scan step of the repository queries: `sql.NullString` / `sql.NullTime`
turn NULL into the Go zero value (`.String` is `""`, `.Time` is the zero
time) before the fields are copied into the `Usuario` struct. -/
def Row.scan (r : Row) : Usuario :=
  { id := r.id
    nome := r.nome
    email := r.email
    stripeCustomerID := r.stripe_customer_id.getD ""
    stripeSubscriptionID := r.stripe_subscription_id.getD ""
    subscriptionStatus := r.subscription_status.getD ""
    subscriptionCurrentPeriodEnd := r.subscription_current_period_end.getD 0 }

/-- Embeds `sqliteRepository.Create`: `INSERT INTO usuarios(nome, email) VALUES(?, ?)`.
Only `nome` and `email` are supplied; the other columns take their SQL
defaults (NULL, NULL, 'inactive', NULL).  Returns the new store and
`LastInsertId`. -/
def Repo.Create (st : Store) (u : Usuario) : Store × Int :=
  ({ rows := st.rows ++
      [{ id := st.nextId
         nome := u.nome
         email := u.email
         stripe_customer_id := none
         stripe_subscription_id := none
         subscription_status := some "inactive"
         subscription_current_period_end := none }]
     nextId := st.nextId + 1 }, st.nextId)

/-- Embeds `sqliteRepository.GetByID`: `SELECT ... FROM usuarios WHERE id = ?`;
`sql.ErrNoRows` is translated to the absent value `none`. -/
def Repo.GetByID (st : Store) (id : Int) : Option Usuario :=
  (st.rows.find? (fun r => r.id = id)).map Row.scan

/-- Embeds `sqliteRepository.GetAll`: `SELECT ... FROM usuarios` (in table order). -/
def Repo.GetAll (st : Store) : List Usuario :=
  st.rows.map Row.scan

/-- Embeds `sqliteRepository.Update`: `UPDATE usuarios SET nome = ?, email = ? WHERE
id = ?`.  Zero affected rows is still a successful statement. -/
def Repo.Update (st : Store) (id : Int) (u : Usuario) : Store :=
  { st with rows := st.rows.map (fun r =>
      if r.id = id then { r with nome := u.nome, email := u.email } else r) }

/-- Embeds `sqliteRepository.Delete`: `DELETE FROM usuarios WHERE id = ?`.  Zero
affected rows is still a successful statement. -/
def Repo.Delete (st : Store) (id : Int) : Store :=
  { st with rows := st.rows.filter (fun r => r.id ≠ id) }

/-- Embeds `sqliteRepository.UpdateSubscriptionDetails`: writes exactly the four
subscription columns from the given struct (as non-NULL values, since Go
strings and times are bound directly). -/
def Repo.UpdateSubscriptionDetails (st : Store) (id : Int) (u : Usuario) : Store :=
  { st with rows := st.rows.map (fun r =>
      if r.id = id then
        { r with
          stripe_customer_id := some u.stripeCustomerID
          stripe_subscription_id := some u.stripeSubscriptionID
          subscription_status := some u.subscriptionStatus
          subscription_current_period_end := some u.subscriptionCurrentPeriodEnd }
      else r) }

/-- Embeds `sqliteRepository.GetByStripeID`: `SELECT ... WHERE stripe_customer_id = ?`.
A NULL column never compares equal in SQL, so only rows whose column is
`some ref` match. -/
def Repo.GetByStripeID (st : Store) (ref : String) : Option Usuario :=
  (st.rows.find? (fun r => r.stripe_customer_id = some ref)).map Row.scan

/-- The service-layer business errors of service.go. -/
inductive Err where
  | usuarioNaoEncontrado
  | dadosInvalidos
  | assinaturaJaAtiva
  | webhookStripe
  | stripeErr
deriving DecidableEq, Repr

/-- One observable call from the service layer to the repository or to the
Stripe SDK, in program order. -/
inductive CallEv where
  | repoCreate
  | repoGetByID
  | repoGetAll
  | repoUpdate
  | repoDelete
  | repoUpdateSub
  | repoGetByStripeID
  | stripeNewCustomer
  | stripeNewSession
  | stripeGetSubscription
deriving DecidableEq, Repr

/-- The view of a verified Stripe webhook event that service.go consumes:
`event.Type` plus the fields it reads after `json.Unmarshal` of
`event.Data.Raw` — as a `CheckoutSession` (`.Subscription.ID`, `.Customer.ID`)
on the checkout path, or as a `Subscription` (`.Customer.ID`, `.Status`,
`.CurrentPeriodEnd`) on the subscription paths. -/
structure StripeEvent where
  type : String
  sessionSubscriptionID : String
  sessionCustomerID : String
  subCustomerID : String
  subStatus : String
  subCurrentPeriodEnd : Int
deriving DecidableEq, Repr

/-- The subscription detail returned by `subscription.Get`. -/
structure StripeSubscription where
  id : String
  status : String
  currentPeriodEnd : Int
deriving DecidableEq, Repr

/-- The Stripe SDK as an opaque collaborator: customer.New, session.New
(keyed by the customer reference that is passed in the params),
webhook.ConstructEvent (payload, signature, secret), subscription.Get.
A `.error ()` is the SDK's generic failure; for `constructEvent` it is
precisely "signature verification failed". -/
structure StripeEnv where
  newCustomer : String → String → Except Unit String
  newSession : String → Except Unit String
  constructEvent : String → String → String → Except Unit StripeEvent
  getSubscription : String → Except Unit StripeSubscription

/-- Embeds `UsuarioService.CreateUser`: rejects empty name/email and emails without
an "@" before any repository call, then delegates to `Repo.Create`. -/
def CreateUser (st : Store) (u : Usuario) :
    Except Err Int × Store × List CallEv :=
  if u.nome = "" || u.email = "" then
    (.error .dadosInvalidos, st, [])
  else if !(u.email.contains '@') then
    (.error .dadosInvalidos, st, [])
  else
    let (st', newId) := Repo.Create st u
    (.ok newId, st', [.repoCreate])

/-- Embeds `UsuarioService.GetUserByID`: delegates to `Repo.GetByID` and translates
the absent value into `ErrUsuarioNaoEncontrado`.  Read-only, so only the
result and the call log are returned. -/
def GetUserByID (st : Store) (id : Int) :
    Except Err Usuario × List CallEv :=
  match Repo.GetByID st id with
  | none => (.error .usuarioNaoEncontrado, [.repoGetByID])
  | some u => (.ok u, [.repoGetByID])

/-- Embeds `UsuarioService.GetAllUsers`: pure delegation. -/
def GetAllUsers (st : Store) : List Usuario × List CallEv :=
  (Repo.GetAll st, [.repoGetAll])

/-- Embeds `UsuarioService.UpdateUser`: rejects empty name/email (only — there is no
"@" re-check in the source), confirms existence via `GetUserByID`, then
delegates to `Repo.Update`. -/
def UpdateUser (st : Store) (id : Int) (u : Usuario) :
    Except Err Unit × Store × List CallEv :=
  if u.nome = "" || u.email = "" then
    (.error .dadosInvalidos, st, [])
  else
    match GetUserByID st id with
    | (.error e, calls) => (.error e, st, calls)
    | (.ok _, calls) => (.ok (), Repo.Update st id u, calls ++ [.repoUpdate])

/-- Embeds `UsuarioService.DeleteUser`: confirms existence via `GetUserByID`, then
delegates to `Repo.Delete`. -/
def DeleteUser (st : Store) (id : Int) :
    Except Err Unit × Store × List CallEv :=
  match GetUserByID st id with
  | (.error e, calls) => (.error e, st, calls)
  | (.ok _, calls) => (.ok (), Repo.Delete st id, calls ++ [.repoDelete])

/-- Embeds `UsuarioService.CreateCheckoutSession`: fetch the user (UserNotFound when
absent); refuse when the subscription is already active; create a Stripe
customer first when no reference is stored, persisting it through
`UpdateSubscriptionDetails` before the checkout session is requested;
finally request the session for that customer reference and return its URL. -/
def CreateCheckoutSession (env : StripeEnv) (st : Store) (userID : Int) :
    Except Err String × Store × List CallEv :=
  match Repo.GetByID st userID with
  | none => (.error .usuarioNaoEncontrado, st, [.repoGetByID])
  | some user =>
    if user.subscriptionStatus = "active" then
      (.error .assinaturaJaAtiva, st, [.repoGetByID])
    else if user.stripeCustomerID = "" then
      match env.newCustomer user.nome user.email with
      | .error _ => (.error .stripeErr, st, [.repoGetByID, .stripeNewCustomer])
      | .ok cid =>
        let user' := { user with stripeCustomerID := cid }
        let st' := Repo.UpdateSubscriptionDetails st user.id user'
        match env.newSession cid with
        | .error _ =>
          (.error .stripeErr, st',
            [.repoGetByID, .stripeNewCustomer, .repoUpdateSub, .stripeNewSession])
        | .ok url =>
          (.ok url, st',
            [.repoGetByID, .stripeNewCustomer, .repoUpdateSub, .stripeNewSession])
    else
      match env.newSession user.stripeCustomerID with
      | .error _ => (.error .stripeErr, st, [.repoGetByID, .stripeNewSession])
      | .ok url => (.ok url, st, [.repoGetByID, .stripeNewSession])

/-- Embeds `UsuarioService.HandleStripeWebhook`: verify the signature (returning
`ErrWebhookStripe` on failure); on "checkout.session.completed" fetch the
full subscription and persist reference/status/period-end for the local user
found by Stripe customer id (silent success when there is none); on
"customer.subscription.updated" / "customer.subscription.deleted" persist the
reported status/period-end likewise; ignore any other event type. -/
def HandleStripeWebhook (env : StripeEnv) (secret : String) (st : Store)
    (payload signature : String) :
    Except Err Unit × Store × List CallEv :=
  match env.constructEvent payload signature secret with
  | .error _ => (.error .webhookStripe, st, [])
  | .ok event =>
    if event.type = "checkout.session.completed" then
      match env.getSubscription event.sessionSubscriptionID with
      | .error _ => (.error .stripeErr, st, [.stripeGetSubscription])
      | .ok sub =>
        match Repo.GetByStripeID st event.sessionCustomerID with
        | none => (.ok (), st, [.stripeGetSubscription, .repoGetByStripeID])
        | some user =>
          let user' := { user with
            stripeSubscriptionID := sub.id
            subscriptionStatus := sub.status
            subscriptionCurrentPeriodEnd := sub.currentPeriodEnd }
          (.ok (), Repo.UpdateSubscriptionDetails st user.id user',
            [.stripeGetSubscription, .repoGetByStripeID, .repoUpdateSub])
    else if event.type = "customer.subscription.updated" ∨
        event.type = "customer.subscription.deleted" then
      match Repo.GetByStripeID st event.subCustomerID with
      | none => (.ok (), st, [.repoGetByStripeID])
      | some user =>
        let user' := { user with
          subscriptionStatus := event.subStatus
          subscriptionCurrentPeriodEnd := event.subCurrentPeriodEnd }
        (.ok (), Repo.UpdateSubscriptionDetails st user.id user',
          [.repoGetByStripeID, .repoUpdateSub])
    else
      (.ok (), st, [])

deriving instance DecidableEq for Except

/-- View of a row restricted to the four subscription-related columns
(keyed by row identifier). -/
def Row.subscriptionView (r : Row) :
    Int × Option String × Option String × Option String × Option Int :=
  (r.id, r.stripe_customer_id, r.stripe_subscription_id,
   r.subscription_status, r.subscription_current_period_end)

/-- View of a row restricted to name and email (keyed by row identifier). -/
def Row.identityView (r : Row) : Int × String × String :=
  (r.id, r.nome, r.email)

/-- Claim C2: for every stored user and every update input,
UpdateSubscriptionDetails never alters name or email, and Update never alters
any of the four subscription-related columns: each operation leaves the other
operation's fields (and every row's identifier) unchanged. -/
theorem update_and_updateSubscription_frame (st : Store) (id : Int) (u : Usuario) :
    (Repo.Update st id u).rows.map Row.subscriptionView
      = st.rows.map Row.subscriptionView ∧
    (Repo.UpdateSubscriptionDetails st id u).rows.map Row.identityView
      = st.rows.map Row.identityView := by
  constructor
  · simp only [Repo.Update, List.map_map]
    apply List.map_congr_left
    intro r _
    by_cases h : r.id = id <;> simp [Row.subscriptionView, h, Function.comp]
  · simp only [Repo.UpdateSubscriptionDetails, List.map_map]
    apply List.map_congr_left
    intro r _
    by_cases h : r.id = id <;> simp [Row.identityView, h, Function.comp]

/-- Claim C1, counterexample: with the stored user 1 present, the input
user {nome:"Bob", email:"bobx.com"} has a non-empty name and email and the
email lacks an "@", yet UpdateUser succeeds (it does not fail with
InvalidData) and performs the full-update persistence call. -/
theorem updateUser_no_at_check_cex :
    (UpdateUser ⟨[⟨1, "Ana", "ana@x.com", none, none, some "inactive", none⟩], 2⟩
        1 ⟨0, "Bob", "bobx.com", "", "", "", 0⟩).1 = .ok () ∧
    (UpdateUser ⟨[⟨1, "Ana", "ana@x.com", none, none, some "inactive", none⟩], 2⟩
        1 ⟨0, "Bob", "bobx.com", "", "", "", 0⟩).1 ≠ .error .dadosInvalidos ∧
    (UpdateUser ⟨[⟨1, "Ana", "ana@x.com", none, none, some "inactive", none⟩], 2⟩
        1 ⟨0, "Bob", "bobx.com", "", "", "", 0⟩).2.2 = [.repoGetByID, .repoUpdate] ∧
    ("bobx.com".contains '@') = false ∧ ("Bob" : String) ≠ "" := by
  refine ⟨by decide, by decide, by decide, ?_, by decide⟩
  rw [Bool.eq_false_iff]
  simp [String.contains_iff]

/-- Claim C1, amended: UpdateUser re-validates only that name and email are
non-empty; it does not re-check the "@" rule.  For any input with non-empty
name and email whose email lacks an "@", it proceeds to the existence check
and, when the user exists, delegates to the full update. -/
theorem updateUser_no_at_revalidation (st : Store) (id : Int) (u : Usuario)
    (hn : u.nome ≠ "") (he : u.email ≠ "")
    (ha : u.email.contains '@' = false) :
    UpdateUser st id u =
      match Repo.GetByID st id with
      | none => (.error .usuarioNaoEncontrado, st, [.repoGetByID])
      | some _ => (.ok (), Repo.Update st id u, [.repoGetByID, .repoUpdate]) := by
  have hb : (u.nome = "" || u.email = "") = false := by simp [hn, he]
  unfold UpdateUser GetUserByID
  rw [hb]
  cases h : Repo.GetByID st id <;> simp

/-- Claim C1, witness for the amended theorem at a concrete store and input. -/
theorem updateUser_no_at_revalidation_witness :
    UpdateUser ⟨[⟨1, "Ana", "ana@x.com", none, none, some "inactive", none⟩], 2⟩
        1 ⟨0, "Bob", "bobx.com", "", "", "", 0⟩ =
      (.ok (),
       Repo.Update ⟨[⟨1, "Ana", "ana@x.com", none, none, some "inactive", none⟩], 2⟩
         1 ⟨0, "Bob", "bobx.com", "", "", "", 0⟩,
       [.repoGetByID, .repoUpdate]) := by
  have h := updateUser_no_at_revalidation
    ⟨[⟨1, "Ana", "ana@x.com", none, none, some "inactive", none⟩], 2⟩
    1 ⟨0, "Bob", "bobx.com", "", "", "", 0⟩
    (by decide) (by decide)
    (by rw [Bool.eq_false_iff]; simp [String.contains_iff])
  rw [h]
  decide

/-- Claim C3: for every user whose stored subscription status is "active",
CreateCheckoutSession fails with SubscriptionAlreadyActive, makes no Stripe
call of any kind, performs no write, and leaves the store unchanged. -/
theorem createCheckoutSession_active_rejected (env : StripeEnv) (st : Store)
    (id : Int) (u : Usuario)
    (hu : Repo.GetByID st id = some u)
    (ha : u.subscriptionStatus = "active") :
    CreateCheckoutSession env st id = (.error .assinaturaJaAtiva, st, [.repoGetByID]) := by
  unfold CreateCheckoutSession
  rw [hu]
  simp [ha]

/-- Claim C3, witness at a concrete store holding an active subscriber. -/
theorem createCheckoutSession_active_rejected_witness :
    CreateCheckoutSession
      ⟨fun _ _ => .error (), fun _ => .error (), fun _ _ _ => .error (), fun _ => .error ()⟩
      ⟨[⟨1, "Ana", "ana@x.com", some "cus_1", none, some "active", none⟩], 2⟩ 1 =
      (.error .assinaturaJaAtiva,
       ⟨[⟨1, "Ana", "ana@x.com", some "cus_1", none, some "active", none⟩], 2⟩,
       [.repoGetByID]) :=
  createCheckoutSession_active_rejected _ _ _
    ⟨1, "Ana", "ana@x.com", "cus_1", "", "active", 0⟩ (by decide) rfl

/-- Claim C5: for every input with empty name or empty email, both CreateUser
and UpdateUser fail with InvalidData with an empty call log (no persistence
call) and an unchanged store; and for every input email lacking an "@",
CreateUser fails with InvalidData likewise, before any persistence attempt. -/
theorem createUser_updateUser_invalid_data (st : Store) (id : Int) (u : Usuario) :
    ((u.nome = "" ∨ u.email = "") →
      CreateUser st u = (.error .dadosInvalidos, st, []) ∧
      UpdateUser st id u = (.error .dadosInvalidos, st, [])) ∧
    (u.email.contains '@' = false →
      CreateUser st u = (.error .dadosInvalidos, st, [])) := by
  constructor
  · intro h
    have hb : (u.nome = "" || u.email = "") = true := by
      rcases h with h | h <;> simp [h]
    constructor <;> simp [CreateUser, UpdateUser, hb]
  · intro h
    by_cases hb : (u.nome = "" || u.email = "") = true
    · simp [CreateUser, hb]
    · simp [CreateUser, hb, h]

/-- Claim C5, witness: an empty-name input rejected by both operations, and a
no-"@" input rejected by CreateUser, on a concrete store. -/
theorem createUser_updateUser_invalid_data_witness :
    CreateUser ⟨[], 1⟩ ⟨0, "", "a@b.com", "", "", "", 0⟩
      = (.error .dadosInvalidos, ⟨[], 1⟩, []) ∧
    UpdateUser ⟨[], 1⟩ 1 ⟨0, "", "a@b.com", "", "", "", 0⟩
      = (.error .dadosInvalidos, ⟨[], 1⟩, []) ∧
    CreateUser ⟨[], 1⟩ ⟨0, "Ana", "anax.com", "", "", "", 0⟩
      = (.error .dadosInvalidos, ⟨[], 1⟩, []) := by
  refine ⟨((createUser_updateUser_invalid_data ⟨[], 1⟩ 1 _).1 (Or.inl rfl)).1,
          ((createUser_updateUser_invalid_data ⟨[], 1⟩ 1 _).1 (Or.inl rfl)).2,
          (createUser_updateUser_invalid_data ⟨[], 1⟩ 1 _).2 ?_⟩
  rw [Bool.eq_false_iff]
  simp [String.contains_iff]

/-- Claim C6: for every identifier with no matching row, GetUserByID fails
with UserNotFound; UpdateUser with valid input fails with UserNotFound; and
DeleteUser fails with UserNotFound, removing no row (no delete call) and
leaving the store unchanged. -/
theorem notFound_propagation (st : Store) (id : Int) (u : Usuario)
    (hmiss : Repo.GetByID st id = none)
    (hn : u.nome ≠ "") (he : u.email ≠ "") (ha : u.email.contains '@' = true) :
    (GetUserByID st id).1 = .error .usuarioNaoEncontrado ∧
    UpdateUser st id u = (.error .usuarioNaoEncontrado, st, [.repoGetByID]) ∧
    DeleteUser st id = (.error .usuarioNaoEncontrado, st, [.repoGetByID]) := by
  have hb : (u.nome = "" || u.email = "") = false := by simp [hn, he]
  refine ⟨?_, ?_, ?_⟩
  · simp [GetUserByID, hmiss]
  · simp [UpdateUser, GetUserByID, hmiss, hb]
  · simp [DeleteUser, GetUserByID, hmiss]

/-- Claim C6, witness: identifier 999 on a store holding only user 1. -/
theorem notFound_propagation_witness :
    (GetUserByID ⟨[⟨1, "Ana", "ana@x.com", none, none, some "inactive", none⟩], 2⟩ 999).1
      = .error .usuarioNaoEncontrado ∧
    UpdateUser ⟨[⟨1, "Ana", "ana@x.com", none, none, some "inactive", none⟩], 2⟩ 999
        ⟨0, "Bob", "bob@x.com", "", "", "", 0⟩
      = (.error .usuarioNaoEncontrado,
         ⟨[⟨1, "Ana", "ana@x.com", none, none, some "inactive", none⟩], 2⟩,
         [.repoGetByID]) ∧
    DeleteUser ⟨[⟨1, "Ana", "ana@x.com", none, none, some "inactive", none⟩], 2⟩ 999
      = (.error .usuarioNaoEncontrado,
         ⟨[⟨1, "Ana", "ana@x.com", none, none, some "inactive", none⟩], 2⟩,
         [.repoGetByID]) :=
  notFound_propagation _ 999 ⟨0, "Bob", "bob@x.com", "", "", "", 0⟩
    (by decide) (by decide) (by decide)
    (by simp [String.contains_iff])

/-- Claim C7: whenever signature verification fails, HandleStripeWebhook
fails with the webhook error and performs no repository call at all, leaving
the store unchanged. -/
theorem handleWebhook_bad_signature (env : StripeEnv) (secret : String)
    (st : Store) (payload signature : String)
    (hfail : env.constructEvent payload signature secret = .error ()) :
    HandleStripeWebhook env secret st payload signature
      = (.error .webhookStripe, st, []) := by
  unfold HandleStripeWebhook
  rw [hfail]

/-- Claim C7, witness: an environment that rejects every signature. -/
theorem handleWebhook_bad_signature_witness :
    HandleStripeWebhook
      ⟨fun _ _ => .error (), fun _ => .error (), fun _ _ _ => .error (), fun _ => .error ()⟩
      "whsec" ⟨[], 1⟩ "payload" "bad-sig"
      = (.error .webhookStripe, ⟨[], 1⟩, []) :=
  handleWebhook_bad_signature _ "whsec" ⟨[], 1⟩ "payload" "bad-sig" rfl

/-- Claim C4: a verified event of type customer.subscription.updated or
customer.subscription.deleted whose customer reference matches no local user
makes HandleStripeWebhook return success, with the lookup as its only
repository call (no write) and the store unchanged. -/
theorem handleWebhook_unknown_customer_noop (env : StripeEnv) (secret : String)
    (st : Store) (payload signature : String) (ev : StripeEvent)
    (hok : env.constructEvent payload signature secret = .ok ev)
    (hty : ev.type = "customer.subscription.updated" ∨
           ev.type = "customer.subscription.deleted")
    (hmiss : Repo.GetByStripeID st ev.subCustomerID = none) :
    HandleStripeWebhook env secret st payload signature
      = (.ok (), st, [.repoGetByStripeID]) := by
  have hne : ¬ ev.type = "checkout.session.completed" := by
    rcases hty with h | h <;> rw [h] <;> decide
  simp only [HandleStripeWebhook, hok]
  rw [if_neg hne, if_pos hty, hmiss]

/-- Claim C4, witness: a subscription-updated event for customer cus_x on a
store that has no such customer reference. -/
theorem handleWebhook_unknown_customer_noop_witness :
    HandleStripeWebhook
      ⟨fun _ _ => .error (), fun _ => .error (),
       fun _ _ _ => .ok ⟨"customer.subscription.updated", "", "", "cus_x", "canceled", 0⟩,
       fun _ => .error ()⟩
      "whsec" ⟨[⟨1, "Ana", "ana@x.com", none, none, some "inactive", none⟩], 2⟩
      "payload" "sig"
      = (.ok (), ⟨[⟨1, "Ana", "ana@x.com", none, none, some "inactive", none⟩], 2⟩,
         [.repoGetByStripeID]) :=
  handleWebhook_unknown_customer_noop _ "whsec" _ "payload" "sig"
    ⟨"customer.subscription.updated", "", "", "cus_x", "canceled", 0⟩
    rfl (Or.inl rfl) (by decide)

/-- Claim C8: for an existing user with non-active subscription status: when
no Stripe customer reference is stored, CreateCheckoutSession first creates
the remote customer, persists the returned reference through
UpdateSubscriptionDetails, and only then (per the call log's order) requests
the checkout session for that reference, returning the provider URL; when a
reference is already stored, no customer-creation call is made and the
session is requested for the stored reference with the store untouched. -/
theorem createCheckoutSession_customer_flow (env : StripeEnv) (st : Store)
    (id : Int) (u : Usuario)
    (hu : Repo.GetByID st id = some u)
    (hs : ¬ u.subscriptionStatus = "active") :
    (∀ cid url, u.stripeCustomerID = "" →
        env.newCustomer u.nome u.email = .ok cid →
        env.newSession cid = .ok url →
        CreateCheckoutSession env st id =
          (.ok url,
           Repo.UpdateSubscriptionDetails st u.id { u with stripeCustomerID := cid },
           [.repoGetByID, .stripeNewCustomer, .repoUpdateSub, .stripeNewSession])) ∧
    (∀ url, ¬ u.stripeCustomerID = "" →
        env.newSession u.stripeCustomerID = .ok url →
        CreateCheckoutSession env st id =
          (.ok url, st, [.repoGetByID, .stripeNewSession])) := by
  constructor
  · intro cid url hemp hc hsess
    simp only [CreateCheckoutSession, hu]
    rw [if_neg hs, if_pos hemp]
    simp only [hc, hsess]
  · intro url hne hsess
    simp only [CreateCheckoutSession, hu]
    rw [if_neg hs, if_neg hne]
    simp only [hsess]

/-- Claim C8, witness: both branches on concrete stores — user 1 without a
stored reference gets the customer created and persisted before the session
call; user 1 with a stored reference goes straight to the session call. -/
theorem createCheckoutSession_customer_flow_witness :
    CreateCheckoutSession
      ⟨fun _ _ => .ok "cus_9", fun _ => .ok "url_9", fun _ _ _ => .error (), fun _ => .error ()⟩
      ⟨[⟨1, "Ana", "ana@x.com", none, none, none, none⟩], 2⟩ 1 =
      (.ok "url_9",
       Repo.UpdateSubscriptionDetails ⟨[⟨1, "Ana", "ana@x.com", none, none, none, none⟩], 2⟩
         1 ⟨1, "Ana", "ana@x.com", "cus_9", "", "", 0⟩,
       [.repoGetByID, .stripeNewCustomer, .repoUpdateSub, .stripeNewSession]) ∧
    CreateCheckoutSession
      ⟨fun _ _ => .ok "cus_9", fun _ => .ok "url_9", fun _ _ _ => .error (), fun _ => .error ()⟩
      ⟨[⟨1, "Ana", "ana@x.com", some "cus_7", none, none, none⟩], 2⟩ 1 =
      (.ok "url_9",
       ⟨[⟨1, "Ana", "ana@x.com", some "cus_7", none, none, none⟩], 2⟩,
       [.repoGetByID, .stripeNewSession]) := by
  constructor
  · exact (createCheckoutSession_customer_flow _ _ 1
      ⟨1, "Ana", "ana@x.com", "", "", "", 0⟩ (by decide) (by decide)).1
      "cus_9" "url_9" rfl rfl rfl
  · exact (createCheckoutSession_customer_flow _ _ 1
      ⟨1, "Ana", "ana@x.com", "cus_7", "", "", 0⟩ (by decide) (by decide)).2
      "url_9" (by decide) rfl

/-- Finds nothing in the first list, so a search over an appended list is a
search over the second list. -/
theorem find?_append_of_none {α : Type} (p : α → Bool) (l₁ l₂ : List α)
    (h : l₁.find? p = none) : (l₁ ++ l₂).find? p = l₂.find? p := by
  rw [List.find?_append, h, Option.none_or]

/-- Claim C9: for every valid creation input on a well-formed store (no row
already carries the next identifier), CreateUser persists exactly one row
holding only the given name and email (all other columns at their SQL
defaults), and GetUserByID on the returned identifier yields that name and
email with subscription status "inactive" and empty references. -/
theorem createUser_roundtrip_defaults (st : Store) (u : Usuario)
    (hwf : ∀ r ∈ st.rows, r.id ≠ st.nextId)
    (hn : u.nome ≠ "") (he : u.email ≠ "") (ha : u.email.contains '@' = true) :
    CreateUser st u = (.ok st.nextId, (Repo.Create st u).1, [.repoCreate]) ∧
    (GetUserByID (Repo.Create st u).1 st.nextId).1 =
      .ok { id := st.nextId, nome := u.nome, email := u.email,
            stripeCustomerID := "", stripeSubscriptionID := "",
            subscriptionStatus := "inactive", subscriptionCurrentPeriodEnd := 0 } := by
  have hb : (u.nome = "" || u.email = "") = false := by simp [hn, he]
  have hfind : (st.rows.find? fun r => r.id = st.nextId) = none := by
    rw [List.find?_eq_none]
    intro r hr
    simpa using hwf r hr
  constructor
  · simp [CreateUser, Repo.Create, hb, ha]
  · have happ := find?_append_of_none (fun r => r.id = st.nextId) st.rows
      [{ id := st.nextId, nome := u.nome, email := u.email,
         stripe_customer_id := none, stripe_subscription_id := none,
         subscription_status := some "inactive",
         subscription_current_period_end := none }] hfind
    simp [GetUserByID, Repo.GetByID, Repo.Create, happ, List.find?_cons, Row.scan]

/-- Claim C9, witness: creating Ana in the empty store yields id 1, and
reading it back shows the defaults. -/
theorem createUser_roundtrip_defaults_witness :
    CreateUser ⟨[], 1⟩ ⟨0, "Ana", "ana@x.com", "", "", "", 0⟩
      = (.ok 1, (Repo.Create ⟨[], 1⟩ ⟨0, "Ana", "ana@x.com", "", "", "", 0⟩).1, [.repoCreate]) ∧
    (GetUserByID (Repo.Create ⟨[], 1⟩ ⟨0, "Ana", "ana@x.com", "", "", "", 0⟩).1 1).1 =
      .ok ⟨1, "Ana", "ana@x.com", "", "", "inactive", 0⟩ :=
  createUser_roundtrip_defaults ⟨[], 1⟩ ⟨0, "Ana", "ana@x.com", "", "", "", 0⟩
    (by simp) (by decide) (by decide) (by simp [String.contains_iff])

/-- Claim C10: for every identifier with no matching row, the repository's
Update and Delete leave the store exactly unchanged (a zero-row UPDATE or
DELETE is still a successful statement), while the UserNotFound observed by
callers of UpdateUser / DeleteUser is produced by the service layer's prior
existence check — the call log shows no adapter write was attempted. -/
theorem repo_update_delete_miss_noop (st : Store) (id : Int) (u : Usuario)
    (hmiss : Repo.GetByID st id = none)
    (hn : u.nome ≠ "") (he : u.email ≠ "") :
    Repo.Update st id u = st ∧
    Repo.Delete st id = st ∧
    UpdateUser st id u = (.error .usuarioNaoEncontrado, st, [.repoGetByID]) ∧
    DeleteUser st id = (.error .usuarioNaoEncontrado, st, [.repoGetByID]) := by
  have hall : ∀ r ∈ st.rows, ¬ r.id = id := by
    have h1 : (st.rows.find? fun r => r.id = id) = none := by
      unfold Repo.GetByID at hmiss
      exact Option.map_eq_none'.mp hmiss
    intro r hr
    simpa using List.find?_eq_none.mp h1 r hr
  have hb : (u.nome = "" || u.email = "") = false := by simp [hn, he]
  refine ⟨?_, ?_, ?_, ?_⟩
  · unfold Repo.Update
    rw [List.map_congr_left (fun r hr => if_neg (hall r hr)), List.map_id']
  · unfold Repo.Delete
    have hfilter : (st.rows.filter fun r => r.id ≠ id) = st.rows := by
      rw [List.filter_eq_self]
      intro r hr
      simpa using hall r hr
    rw [hfilter]
  · simp [UpdateUser, GetUserByID, hmiss, hb]
  · simp [DeleteUser, GetUserByID, hmiss]

/-- Claim C10, witness: identifier 999 against a store holding only row 1. -/
theorem repo_update_delete_miss_noop_witness :
    Repo.Update ⟨[⟨1, "Ana", "ana@x.com", none, none, some "inactive", none⟩], 2⟩ 999
        ⟨0, "Bob", "bob@x.com", "", "", "", 0⟩
      = ⟨[⟨1, "Ana", "ana@x.com", none, none, some "inactive", none⟩], 2⟩ ∧
    Repo.Delete ⟨[⟨1, "Ana", "ana@x.com", none, none, some "inactive", none⟩], 2⟩ 999
      = ⟨[⟨1, "Ana", "ana@x.com", none, none, some "inactive", none⟩], 2⟩ ∧
    UpdateUser ⟨[⟨1, "Ana", "ana@x.com", none, none, some "inactive", none⟩], 2⟩ 999
        ⟨0, "Bob", "bob@x.com", "", "", "", 0⟩
      = (.error .usuarioNaoEncontrado,
         ⟨[⟨1, "Ana", "ana@x.com", none, none, some "inactive", none⟩], 2⟩,
         [.repoGetByID]) ∧
    DeleteUser ⟨[⟨1, "Ana", "ana@x.com", none, none, some "inactive", none⟩], 2⟩ 999
      = (.error .usuarioNaoEncontrado,
         ⟨[⟨1, "Ana", "ana@x.com", none, none, some "inactive", none⟩], 2⟩,
         [.repoGetByID]) :=
  repo_update_delete_miss_noop _ 999 ⟨0, "Bob", "bob@x.com", "", "", "", 0⟩
    (by decide) (by decide) (by decide)
